import Mathlib

/-!
Shallow embedding of `reset_database_online.py`, an operator-run maintenance
script for a PostgreSQL database: it connects, backs up four fixed tables
in memory, truncates every table of the `public` schema (keeping the
structure), and reseeds one administrator row.

The embedding models the database as explicit state (`DB`), the outside
world as an `Env` (which SQL statements fail, whether the connection
succeeds, the generated UUID), standard input as a stream `Nat → String`,
and every observable interaction (connection attempts, SQL issued, prompts,
the usage message, closing) as an `Event` trace.  Each Python function of
the script becomes a Lean function of the same name returning its result
together with the events it emits and the updated database state.
-/

namespace ResetDB

/-- A row of the `usuarios` table, with the columns the script writes
(`create_admin_user`) and the invariant-relevant flags. -/
structure UserRow where
  id : String
  nome : String
  usuario : String
  senha_hash : String
  is_admin : Bool
  ativo : Bool
  nivel : Nat
  salario : Rat
  pode_abastecer : Bool
  pode_gerenciar_despesas : Bool
  pode_fazer_devolucao : Bool
  deriving Repr, DecidableEq

/-- Database state as the script can observe it: the `pg_tables` catalog of
the `public` schema, the rows of `usuarios`, and row counts of the other
three backed-up tables (their contents are opaque to the script). -/
structure DB where
  tables : List String
  usuarios : List UserRow
  produtos : Nat
  clientes : Nat
  vendas : Nat
  deriving Repr, DecidableEq

/-- Observable events of one run. -/
inductive Event where
  | connectAttempt
  | connected
  | closeCall
  | connClosed
  | fetch (sql : String)
  | execSql (sql : String)
  | prompt
  | usage
  | unknownAction (a : String)
  deriving Repr, DecidableEq

/-- The environment of a run: which SQL statements raise when issued,
whether `asyncpg.connect` eventually succeeds within the retry budget, and
the UUID `uuid.uuid4()` generates for the admin row. -/
structure Env where
  faults : String → Bool
  connectOk : Bool
  freshUuid : String

/-- Outcome of a whole process run: normal exit, or an uncaught exception. -/
inductive Outcome where
  | exited
  | crashed (msg : String)
  deriving Repr, DecidableEq

/-- Result of a whole run of `main`: outcome, event trace, final database. -/
structure RunResult where
  outcome : Outcome
  events : List Event
  db : DB
  deriving Repr, DecidableEq

/-- Python `str.strip()` whitespace set, restricted to the ASCII whitespace
characters (the inputs of interest are ASCII). -/
def pyWhitespace (c : Char) : Bool :=
  c == ' ' || c == '\t' || c == '\n' || c == '\r' || c == '\x0b' || c == '\x0c'

/-- Python `str.strip()`: remove leading and trailing whitespace. -/
def pyStrip (s : String) : String :=
  ⟨((s.data.dropWhile pyWhitespace).reverse.dropWhile pyWhitespace).reverse⟩

/-- Python `str.lower()` on one character (ASCII range; the recognized
workflow names are ASCII). -/
def lowerChar (c : Char) : Char :=
  if 65 ≤ c.toNat ∧ c.toNat ≤ 90 then Char.ofNat (c.toNat + 32) else c

/-- Python `str.lower()`. -/
def pyLower (s : String) : String :=
  ⟨s.data.map lowerChar⟩

/-- The identifier pattern `^[A-Za-z_][A-Za-z0-9_]*$`, read as an anchored
regular expression over the entire string. -/
def matchesIdentPattern (s : String) : Bool :=
  match s.data with
  | [] => false
  | c :: cs => (c.isAlpha || c == '_') && cs.all fun d => d.isAlpha || d.isDigit || d == '_'

/-- `re.match(r"^[A-Za-z_][A-Za-z0-9_]*$", s)` as Python evaluates it:
without `re.MULTILINE`, `$` also matches just before one newline at the end
of the string, so a name consisting of the pattern plus a single trailing
`"\n"` is accepted as well. -/
def pyValidName (s : String) : Bool :=
  matchesIdentPattern s ||
    (match s.data.getLast? with
     | some c => c == '\n' && matchesIdentPattern ⟨s.data.dropLast⟩
     | none => false)

/-- SQL text of the catalog query in `drop_all_tables`/`truncate_all_tables`. -/
def catalogSql : String :=
  "SELECT tablename FROM pg_tables WHERE schemaname = \x27public\x27"

/-- SQL text of the per-table backup fetch in `backup_data`. -/
def backupSql (t : String) : String :=
  "SELECT * FROM " ++ t

/-- SQL text interpolated by `truncate_all_tables` for one table. -/
def truncateSql (t : String) : String :=
  "TRUNCATE TABLE \"" ++ t ++ "\" RESTART IDENTITY CASCADE"

/-- Number of rows of a backed-up table in the current state. -/
def rowCountOf (db : DB) (t : String) : Nat :=
  if t == "usuarios" then db.usuarios.length
  else if t == "produtos" then db.produtos
  else if t == "clientes" then db.clientes
  else db.vendas

/-- A fetch of table `t` succeeds when the table exists in the catalog and
the environment does not fail the statement. -/
def fetchOk (env : Env) (db : DB) (t : String) : Bool :=
  db.tables.contains t && !(env.faults (backupSql t))

/-- The fixed backup list of `backup_data`, in source order. -/
def backupTables : List String :=
  ["usuarios", "produtos", "clientes", "vendas"]

/-- Loop of `backup_data`: sequential fetches inside one `try`; the first
failing fetch jumps to the `except` clause, which returns the EMPTY dict
(discarding the part already accumulated). -/
def backupGo (env : Env) (db : DB) : List String → List (String × Nat) → List Event → List (String × Nat) × List Event
  | [], acc, evs => (acc, evs)
  | t :: ts, acc, evs =>
    let evs2 := evs ++ [Event.fetch (backupSql t)]
    if fetchOk env db t then
      backupGo env db ts (acc ++ [(t, rowCountOf db t)]) evs2
    else
      ([], evs2)

/-- `backup_data`: best-effort in-memory snapshot of the four fixed tables;
any exception is caught and `{}` is returned. -/
def backup_data (env : Env) (db : DB) : List (String × Nat) × List Event :=
  backupGo env db backupTables [] []

/-- Effect of `TRUNCATE TABLE t RESTART IDENTITY CASCADE` on the modelled
state (tables the model does not track rows of are unaffected). -/
def applyTruncate (db : DB) (t : String) : DB :=
  if t == "usuarios" then { db with usuarios := [] }
  else if t == "produtos" then { db with produtos := 0 }
  else if t == "clientes" then { db with clientes := 0 }
  else if t == "vendas" then { db with vendas := 0 }
  else db

/-- Loop of `truncate_all_tables`: per table, skip names rejected by the
`re.match` check, otherwise issue the TRUNCATE; a raising statement
propagates out (the outer `except` re-raises). -/
def truncGo (env : Env) : List String → DB → List Event → Except String Unit × DB × List Event
  | [], db, evs => (Except.ok (), db, evs)
  | t :: ts, db, evs =>
    if pyValidName t then
      let evs2 := evs ++ [Event.execSql (truncateSql t)]
      if env.faults (truncateSql t) then
        (Except.error "erro ao limpar dados", db, evs2)
      else
        truncGo env ts (applyTruncate db t) evs2
    else
      truncGo env ts db evs

/-- `truncate_all_tables`: query the catalog, return early when it is
empty, drop `alembic_version` from the list, then truncate each validated
name; any failure is re-raised. -/
def truncate_all_tables (env : Env) (db : DB) : Except String Unit × DB × List Event :=
  let evs : List Event := [Event.fetch catalogSql]
  if env.faults catalogSql then
    (Except.error "erro ao consultar catalogo", db, evs)
  else if db.tables.isEmpty then
    (Except.ok (), db, evs)
  else
    truncGo env (db.tables.filter fun t => t != "alembic_version") db evs

/-- Modelled from the spec: `werkzeug.security.generate_password_hash` is an
external library routine, not part of this repository.  Per the spec (§4.5)
the stored credential is a salted one-way hash in werkzeug's
`method$salt$digest` textual format, never the plaintext; we model it by a
deterministic stand-in producing that shape. -/
def generate_password_hash (password : String) : String :=
  "pbkdf2:sha256:600000$s8$" ++ Nat.repr (password.data.foldl (fun a c => a * 31 + c.toNat) 7)

/-- SQL text of the seed INSERT in `create_admin_user`. -/
def insertAdminSql : String :=
  "INSERT INTO usuarios (id, nome, usuario, senha_hash, is_admin, ativo, nivel, salario, pode_abastecer, pode_gerenciar_despesas, pode_fazer_devolucao) VALUES ($1,$2,$3,$4,$5,$6,$7,$8,$9,$10,$11)"

/-- The row `create_admin_user` inserts (`salario` is `0.0` in the source;
the model carries it as the rational `0`). -/
def adminRow (env : Env) : UserRow :=
  { id := env.freshUuid
    nome := "Neotrix Tecnologias"
    usuario := "Neotrix"
    senha_hash := generate_password_hash "842384"
    is_admin := true
    ativo := true
    nivel := 2
    salario := 0
    pode_abastecer := true
    pode_gerenciar_despesas := true
    pode_fazer_devolucao := true }

/-- `create_admin_user`: issue the INSERT; on failure (statement raises or
the table does not exist) the exception is caught and logged, NOT re-raised,
so the function always returns normally. -/
def create_admin_user (env : Env) (db : DB) : DB × List Event :=
  let evs : List Event := [Event.execSql insertAdminSql]
  if env.faults insertAdminSql || !(db.tables.contains "usuarios") then
    (db, evs)
  else
    ({ db with usuarios := db.usuarios ++ [adminRow env] }, evs)

/-- `reset_complete`: backup, truncate everything, reseed the admin; a
truncate failure is re-raised, a backup or seed failure is not. -/
def reset_complete (env : Env) (db : DB) : Except String Unit × DB × List Event :=
  let b := backup_data env db
  match truncate_all_tables env db with
  | (Except.error m, db2, e2) => (Except.error m, db2, b.2 ++ e2)
  | (Except.ok _, db2, e2) =>
    let c := create_admin_user env db2
    (Except.ok (), c.1, b.2 ++ e2 ++ c.2)

/-- `reset_data_only`: same backup → truncate → seed sequence as
`reset_complete` (the functions differ only in the banner text printed). -/
def reset_data_only (env : Env) (db : DB) : Except String Unit × DB × List Event :=
  let b := backup_data env db
  match truncate_all_tables env db with
  | (Except.error m, db2, e2) => (Except.error m, db2, b.2 ++ e2)
  | (Except.ok _, db2, e2) =>
    let c := create_admin_user env db2
    (Except.ok (), c.1, b.2 ++ e2 ++ c.2)

/-- `confirm_action`: two `input()` reads, each `.strip()`ped and compared
case-sensitively to a fixed literal; the second read only happens when the
first matched.  Returns whether the gate passed and how many prompts were
read. -/
def confirm_action (i1 i2 : String) : Bool × Nat :=
  if pyStrip i1 != "CONFIRMO" then (false, 1)
  else if pyStrip i2 != "SIM" then (false, 2)
  else (true, 2)

/-- The workflows of `main`, plus the unrecognized case. -/
inductive Workflow where
  | check
  | complete
  | data
  | unknown
  deriving Repr, DecidableEq

/-- Dispatch on an already-lowercased action string, as the chain of
`if action == ...` comparisons in `main`. -/
def selectByName (a : String) : Workflow :=
  if a == "check" then Workflow.check
  else if a == "complete" then Workflow.complete
  else if a == "data" then Workflow.data
  else Workflow.unknown

/-- Workflow selected for a raw CLI argument: `main` lowercases the
argument (`sys.argv[1].lower()`) before comparing. -/
def selectWorkflow (arg : String) : Workflow :=
  selectByName (pyLower arg)

/-- URL-scheme normalization of `DatabaseReset.__init__`: driver-prefixed
schemes are rewritten to plain `postgresql://`. -/
def normalizeUrl (u : String) : String :=
  let u1 := if u.startsWith "postgresql+asyncpg://" then u.replace "postgresql+asyncpg://" "postgresql://" else u
  if u1.startsWith "postgresql+psycopg2://" then u1.replace "postgresql+psycopg2://" "postgresql://" else u1

/-- Python truthiness of an optional environment-variable value: unset and
the empty string are falsy. -/
def truthy : Option String → Bool
  | none => false
  | some s => s != ""

/-- Python `a or b` on the two optional URL values. -/
def pyOr (a b : Option String) : Option String :=
  if truthy a then a else b

/-- The `ValueError` message raised when no connection URL is configured. -/
def errMsgNoUrl : String :=
  "Nenhuma variável de conexão encontrada. Defina DATABASE_PUBLIC_URL ou DATABASE_URL."

/-- `DatabaseReset.__init__`: prefer the public URL, fall back to the
internal one; raise when the result is falsy; otherwise normalize it. -/
def DatabaseReset.init (publicUrl internalUrl : Option String) : Except String String :=
  match pyOr publicUrl internalUrl with
  | none => Except.error errMsgNoUrl
  | some u => if u != "" then Except.ok (normalizeUrl u) else Except.error errMsgNoUrl

/-- Whether `DatabaseReset.__init__` succeeds on the given environment. -/
def initOk (publicUrl internalUrl : Option String) : Bool :=
  match DatabaseReset.init publicUrl internalUrl with
  | Except.ok _ => true
  | Except.error _ => false

/-- Events of `DatabaseReset.connect` (retry bound 3): one successful
attempt, or three failing attempts after which `False` is returned. -/
def connectEvents (ok : Bool) : List Event :=
  if ok then [Event.connectAttempt, Event.connected]
  else [Event.connectAttempt, Event.connectAttempt, Event.connectAttempt]

/-- Events of the `finally: await reset_db.close()` step: the method is
always invoked; the underlying connection is closed only when `self.conn`
exists (i.e. a connection was established). -/
def closeEvents (connected : Bool) : List Event :=
  Event.closeCall :: (if connected then [Event.connClosed] else [])

/-- Body of the action dispatch in `main`, after a successful connect:
`check` only prints; `complete`/`data` run the Confirmation Gate and, when
it passes, the reset (whose exceptions `main` catches and swallows); an
unrecognized action just prints a message. -/
def runWorkflow (env : Env) (w : Workflow) (actionName : String) (stdin : Nat → String) (db : DB) : DB × List Event :=
  match w with
  | Workflow.check => (db, [])
  | Workflow.complete =>
    let g := confirm_action (stdin 0) (stdin 1)
    if g.1 then
      let r := reset_complete env db
      (r.2.1, List.replicate g.2 Event.prompt ++ r.2.2)
    else
      (db, List.replicate g.2 Event.prompt)
  | Workflow.data =>
    let g := confirm_action (stdin 0) (stdin 1)
    if g.1 then
      let r := reset_data_only env db
      (r.2.1, List.replicate g.2 Event.prompt ++ r.2.2)
    else
      (db, List.replicate g.2 Event.prompt)
  | Workflow.unknown => (db, [Event.unknownAction actionName])

/-- `main`: usage exit when no argument is given; construct `DatabaseReset`
(an uncaught `ValueError` when no URL is configured); inside `try`, connect
(returning early on failure), dispatch on the lowercased action; the
`except` clause swallows any exception; `finally` always invokes `close`. -/
def mainRun (env : Env) (argv : List String) (publicUrl internalUrl : Option String) (stdin : Nat → String) (db : DB) : RunResult :=
  if argv.length < 2 then
    { outcome := Outcome.exited, events := [Event.usage], db := db }
  else
    let action := pyLower (argv.getD 1 "")
    match DatabaseReset.init publicUrl internalUrl with
    | Except.error m => { outcome := Outcome.crashed m, events := [], db := db }
    | Except.ok _ =>
      if env.connectOk then
        let r := runWorkflow env (selectByName action) action stdin db
        { outcome := Outcome.exited
          events := connectEvents true ++ r.2 ++ closeEvents true
          db := r.1 }
      else
        { outcome := Outcome.exited
          events := connectEvents false ++ closeEvents false
          db := db }

/-- Projection of an event to the SQL statement it issues, when mutating. -/
def execOf : Event → Option String
  | Event.execSql s => some s
  | _ => none

/-- All mutating SQL statements (TRUNCATE/DROP/INSERT executes) of a run. -/
def sqlStatements (r : RunResult) : List String :=
  r.events.filterMap execOf

/-- The TRUNCATE statements one `truncate_all_tables` call issues. -/
def truncStatements (env : Env) (db : DB) : List String :=
  (truncate_all_tables env db).2.2.filterMap execOf

/-- Whether an event is an invocation of the `close` method. -/
def isClose : Event → Bool
  | Event.closeCall => true
  | _ => false

/-- How many times `close` is invoked in a run. -/
def closeCalls (r : RunResult) : Nat :=
  r.events.countP isClose

/-- A pre-existing (non-admin) row of `usuarios`, used in concrete states. -/
def oldUser : UserRow :=
  { id := "u0", nome := "Old", usuario := "old", senha_hash := "x", is_admin := false,
    ativo := true, nivel := 1, salario := 0, pode_abastecer := false,
    pode_gerenciar_despesas := false, pode_fazer_devolucao := false }

/-- Environment in which no SQL statement fails. -/
def noFaults : String → Bool := fun _ => false

/-- A fault-free environment with a working connection. -/
def env0 : Env :=
  { faults := noFaults, connectOk := true, freshUuid := "uuid-1" }

/-- Environment in which the backup fetch of `vendas` raises. -/
def envVendasFault : Env :=
  { faults := fun s => s == backupSql "vendas", connectOk := true, freshUuid := "uuid-1" }

/-- Environment in which the seed INSERT raises. -/
def envInsFault : Env :=
  { faults := fun s => s == insertAdminSql, connectOk := true, freshUuid := "uuid-1" }

/-- A concrete database state with the four application tables and some rows. -/
def db0 : DB :=
  { tables := ["usuarios", "produtos", "clientes", "vendas"],
    usuarios := [oldUser], produtos := 2, clientes := 3, vendas := 1 }

/-- A catalog holding one clean name, one name with a space, and one name
with a trailing newline. -/
def dbMixed : DB :=
  { tables := ["usuarios", "bad name", "abc\n"],
    usuarios := [], produtos := 0, clientes := 0, vendas := 0 }

/-- Standard input that passes the Confirmation Gate. -/
def stdinYes : Nat → String := fun n => if n == 0 then "CONFIRMO" else "SIM"

/-- Standard input that fails the Confirmation Gate at the first stage. -/
def stdinNo : Nat → String := fun _ => "nao"

/-- Prompt events carry no SQL. -/
theorem filterMap_execOf_replicate_prompt (n : Nat) :
    (List.replicate n Event.prompt).filterMap execOf = [] := by
  induction n with
  | zero => rfl
  | succ k ih => simp [List.replicate_succ, execOf, ih]

/-- The modelled werkzeug hash of the seed password is not the plaintext. -/
theorem hash_ne_plaintext : generate_password_hash "842384" ≠ "842384" := by
  decide

/-- The Confirmation Gate passes exactly on stripped inputs equal to the two
fixed literals. -/
theorem confirm_action_fst (i1 i2 : String) :
    (confirm_action i1 i2).1 = true ↔ (pyStrip i1 = "CONFIRMO" ∧ pyStrip i2 = "SIM") := by
  by_cases h1 : pyStrip i1 = "CONFIRMO" <;> by_cases h2 : pyStrip i2 = "SIM" <;>
    simp [confirm_action, h1, h2]

/-- As soon as one fetch in the backup sequence fails, `backup_data`'s
`except` clause discards the accumulator and yields the empty dict. -/
theorem backupGo_fail_mem (env : Env) (db : DB) :
    ∀ (l : List String) (acc : List (String × Nat)) (evs : List Event) (t : String),
      t ∈ l → fetchOk env db t = false → (backupGo env db l acc evs).1 = [] := by
  intro l
  induction l with
  | nil =>
    intro acc evs t ht _
    exact absurd ht (List.not_mem_nil t)
  | cons u ts ih =>
    intro acc evs t ht hf
    by_cases hu : fetchOk env db u = true
    · rcases List.mem_cons.mp ht with rfl | hts
      · rw [hu] at hf; cases hf
      · simpa [backupGo, hu] using ih _ _ t hts hf
    · simp [backupGo, hu]

/-- When every fetch succeeds, the backup holds all four tables in order. -/
theorem backupGo_all_ok (env : Env) (db : DB) :
    ∀ (l : List String) (acc : List (String × Nat)) (evs : List Event),
      (∀ t ∈ l, fetchOk env db t = true) →
      (backupGo env db l acc evs).1 = acc ++ l.map fun t => (t, rowCountOf db t) := by
  intro l
  induction l with
  | nil => intro acc evs _; simp [backupGo]
  | cons u ts ih =>
    intro acc evs hall
    have hu : fetchOk env db u = true := hall u (List.mem_cons_self u ts)
    have hts : ∀ t ∈ ts, fetchOk env db t = true := fun t ht => hall t (List.mem_cons_of_mem u ht)
    simp [backupGo, hu, ih _ _ hts]

/-- `TRUNCATE` never changes the set of catalog tables. -/
theorem applyTruncate_tables (db : DB) (t : String) :
    (applyTruncate db t).tables = db.tables := by
  unfold applyTruncate
  split_ifs <;> rfl

/-- `TRUNCATE` never repopulates an emptied `usuarios` table. -/
theorem applyTruncate_usuarios_nil (db : DB) (t : String) (h : db.usuarios = []) :
    (applyTruncate db t).usuarios = [] := by
  unfold applyTruncate
  split_ifs <;> simp [h]

/-- The truncate loop leaves the catalog unchanged. -/
theorem truncGo_tables (env : Env) :
    ∀ (l : List String) (db : DB) (evs : List Event),
      (truncGo env l db evs).2.1.tables = db.tables := by
  intro l
  induction l with
  | nil => intro db evs; rfl
  | cons t ts ih =>
    intro db evs
    by_cases hv : pyValidName t = true
    · by_cases hf : env.faults (truncateSql t) = true
      · simp [truncGo, hv, hf]
      · simp [truncGo, hv, hf, ih, applyTruncate_tables]
    · simp [truncGo, hv, ih]

/-- The truncate loop preserves emptiness of `usuarios`. -/
theorem truncGo_usuarios_nil (env : Env) :
    ∀ (l : List String) (db : DB) (evs : List Event), db.usuarios = [] →
      (truncGo env l db evs).2.1.usuarios = [] := by
  intro l
  induction l with
  | nil => intro db evs h; exact h
  | cons t ts ih =>
    intro db evs h
    by_cases hv : pyValidName t = true
    · by_cases hf : env.faults (truncateSql t) = true
      · simpa [truncGo, hv, hf] using h
      · simp [truncGo, hv, hf]
        exact ih _ _ (applyTruncate_usuarios_nil db t h)
    · simp [truncGo, hv]
      exact ih _ _ h

/-- When the truncate loop runs to completion and `usuarios` was among the
names to process, `usuarios` ends up empty. -/
theorem truncGo_ok_usuarios (env : Env) :
    ∀ (l : List String) (db : DB) (evs : List Event),
      "usuarios" ∈ l → (truncGo env l db evs).1 = Except.ok () →
      (truncGo env l db evs).2.1.usuarios = [] := by
  intro l
  induction l with
  | nil =>
    intro db evs hm _
    exact absurd hm (List.not_mem_nil _)
  | cons t ts ih =>
    intro db evs hm hok
    by_cases hv : pyValidName t = true
    · by_cases hf : env.faults (truncateSql t) = true
      · rw [truncGo] at hok
        simp [hv, hf] at hok
      · rcases List.mem_cons.mp hm with rfl | hts
        · simp [truncGo, hv, hf]
          exact truncGo_usuarios_nil env ts _ _ (by simp [applyTruncate])
        · rw [truncGo] at hok ⊢
          simp only [hv, if_true, hf, if_false] at hok ⊢
          simpa using ih _ _ hts (by simpa using hok)
    · have ht : t ≠ "usuarios" := by
        intro h
        rw [h] at hv
        exact hv (by decide)
      have hts : "usuarios" ∈ ts := by
        rcases List.mem_cons.mp hm with h | h
        · exact absurd h.symm ht
        · exact h
      rw [truncGo] at hok ⊢
      simp only [hv, if_false] at hok ⊢
      exact ih _ _ hts (by simpa using hok)

/-- A successful `truncate_all_tables` on a catalog that lists `usuarios`
empties `usuarios` and leaves the catalog itself unchanged. -/
theorem truncate_all_ok_usuarios (env : Env) (db : DB)
    (hmem : "usuarios" ∈ db.tables)
    (hok : (truncate_all_tables env db).1 = Except.ok ()) :
    (truncate_all_tables env db).2.1.usuarios = [] ∧
    (truncate_all_tables env db).2.1.tables = db.tables := by
  by_cases hcat : env.faults catalogSql = true
  · rw [truncate_all_tables] at hok
    simp [hcat] at hok
  · have hne : ¬ db.tables.isEmpty = true := by
      cases h : db.tables with
      | nil => rw [h] at hmem; exact absurd hmem (List.not_mem_nil _)
      | cons a as => simp [h]
    have hmf : "usuarios" ∈ db.tables.filter fun t => t != "alembic_version" :=
      List.mem_filter.mpr ⟨hmem, by decide⟩
    rw [truncate_all_tables] at hok ⊢
    simp only [hcat, if_false, hne] at hok ⊢
    exact ⟨truncGo_ok_usuarios env _ _ _ hmf (by simpa using hok), truncGo_tables env _ _ _⟩

/-- Statements issued by the truncate loop when no statement faults: one
TRUNCATE per name accepted by the `re.match` validation, in order. -/
theorem truncGo_stmts (env : Env) (hf : ∀ t, env.faults (truncateSql t) = false) :
    ∀ (l : List String) (db : DB) (evs : List Event),
      (truncGo env l db evs).2.2.filterMap execOf
        = evs.filterMap execOf ++ (l.filter pyValidName).map truncateSql := by
  intro l
  induction l with
  | nil => intro db evs; simp [truncGo]
  | cons t ts ih =>
    intro db evs
    by_cases hv : pyValidName t = true
    · simp [truncGo, hv, hf t, ih, List.filter_cons, execOf]
    · simp [truncGo, hv, ih, List.filter_cons]

/-- The two reset entry points are the same function of the state. -/
theorem resets_eq (env : Env) (db : DB) :
    reset_data_only env db = reset_complete env db := rfl

/-- The backup loop invokes `close` zero times. -/
theorem countP_isClose_backupGo (env : Env) (db : DB) :
    ∀ (l : List String) (acc : List (String × Nat)) (evs : List Event),
      (backupGo env db l acc evs).2.countP isClose = evs.countP isClose := by
  intro l
  induction l with
  | nil => intro acc evs; rfl
  | cons t ts ih =>
    intro acc evs
    by_cases hu : fetchOk env db t = true
    · simp [backupGo, hu, ih, List.countP_append, isClose]
    · simp [backupGo, hu, List.countP_append, isClose]

/-- The truncate loop invokes `close` zero times. -/
theorem countP_isClose_truncGo (env : Env) :
    ∀ (l : List String) (db : DB) (evs : List Event),
      (truncGo env l db evs).2.2.countP isClose = evs.countP isClose := by
  intro l
  induction l with
  | nil => intro db evs; rfl
  | cons t ts ih =>
    intro db evs
    by_cases hv : pyValidName t = true
    · by_cases hf : env.faults (truncateSql t) = true
      · simp [truncGo, hv, hf, List.countP_append, isClose]
      · simp [truncGo, hv, hf, ih, List.countP_append, isClose]
    · simp [truncGo, hv, ih]

/-- `truncate_all_tables` invokes `close` zero times. -/
theorem countP_isClose_truncate_all (env : Env) (db : DB) :
    (truncate_all_tables env db).2.2.countP isClose = 0 := by
  by_cases hcat : env.faults catalogSql = true
  · simp [truncate_all_tables, hcat, isClose]
  · by_cases hne : db.tables.isEmpty = true
    · simp [truncate_all_tables, hcat, hne, isClose]
    · simp [truncate_all_tables, hcat, hne, countP_isClose_truncGo, isClose]

/-- A whole destructive reset invokes `close` zero times. -/
theorem countP_isClose_reset (env : Env) (db : DB) :
    (reset_complete env db).2.2.countP isClose = 0 := by
  rcases htr : truncate_all_tables env db with ⟨e, db2, evs⟩
  have hevs : evs.countP isClose = 0 := by
    have := countP_isClose_truncate_all env db
    rw [htr] at this
    exact this
  cases e with
  | error m =>
    simp [reset_complete, htr, List.countP_append, hevs, countP_isClose_backupGo, backup_data]
  | ok u =>
    simp only [reset_complete, htr, backup_data, List.countP_append, hevs,
      countP_isClose_backupGo, create_admin_user]
    by_cases hi : env.faults insertAdminSql = true ∨ "usuarios" ∉ db2.tables
    · simp [hi, isClose]
    · simp [hi, isClose]

/-- The dispatch body invokes `close` zero times. -/
theorem countP_isClose_runWorkflow (env : Env) (w : Workflow) (a : String)
    (stdin : Nat → String) (db : DB) :
    (runWorkflow env w a stdin db).2.countP isClose = 0 := by
  have hrep : ∀ n : Nat, (List.replicate n Event.prompt).countP isClose = 0 := by
    intro n
    induction n with
    | zero => rfl
    | succ k ih => simp [List.replicate_succ, isClose, ih]
  cases w with
  | check => rfl
  | complete =>
    rcases hg : confirm_action (stdin 0) (stdin 1) with ⟨b, n⟩
    cases b with
    | false => simp [runWorkflow, hg, hrep]
    | true => simp [runWorkflow, hg, List.countP_append, hrep, countP_isClose_reset]
  | data =>
    rcases hg : confirm_action (stdin 0) (stdin 1) with ⟨b, n⟩
    cases b with
    | false => simp [runWorkflow, hg, hrep]
    | true =>
      simp [runWorkflow, hg, List.countP_append, hrep, resets_eq, countP_isClose_reset]
  | unknown => simp [runWorkflow, isClose]

/-- When the Confirmation Gate aborts, a run of a destructive workflow
issues no mutating SQL and leaves the database untouched. -/
theorem gate_abort_run (env : Env) (argv : List String) (pu du : Option String)
    (stdin : Nat → String) (db : DB)
    (hw : selectWorkflow (argv.getD 1 "") = Workflow.complete ∨
      selectWorkflow (argv.getD 1 "") = Workflow.data)
    (hg : (confirm_action (stdin 0) (stdin 1)).1 = false) :
    sqlStatements (mainRun env argv pu du stdin db) = [] ∧
    (mainRun env argv pu du stdin db).db = db := by
  rw [selectWorkflow] at hw
  simp only [List.getD_eq_getElem?_getD] at hw
  rcases hgp : confirm_action (stdin 0) (stdin 1) with ⟨b, n⟩
  rw [hgp] at hg
  cases hg
  by_cases hlen : argv.length < 2
  · simp [mainRun, hlen, sqlStatements, execOf]
  · rcases hinit : DatabaseReset.init pu du with m | u
    · simp [mainRun, hlen, hinit, sqlStatements]
    · cases hc : env.connectOk
      · simp [mainRun, hlen, hinit, hc, sqlStatements, connectEvents, closeEvents, execOf]
      · rcases hw with hw | hw <;>
          simp [mainRun, hlen, hinit, hc, sqlStatements, connectEvents, closeEvents,
            runWorkflow, hw, hgp, execOf, List.filterMap_append,
            filterMap_execOf_replicate_prompt]

/-- Claim C1, counterexample: in a `complete` run whose first gate input
does not match, the trace nevertheless contains a connect call (the script
connects before prompting), so "performs no database connection" is false. -/
theorem C1_counterexample :
    (confirm_action (stdinNo 0) (stdinNo 1)).1 = false ∧
    Event.connectAttempt ∈
      (mainRun env0 ["prog", "complete"] (some "postgresql://x") none stdinNo db0).events ∧
    Event.connected ∈
      (mainRun env0 ["prog", "complete"] (some "postgresql://x") none stdinNo db0).events := by
  decide

/-- Claim C1 (amended): in every run of a destructive workflow in which the
Confirmation Gate receives a non-matching input at either stage, the run
aborts the workflow, issues no mutating SQL (no TRUNCATE/DROP/INSERT
execute), and leaves the database unchanged; the database connection,
however, has already been opened before the gate runs. -/
theorem C1_abort_no_mutation (env : Env) (argv : List String) (pu du : Option String)
    (stdin : Nat → String) (db : DB)
    (hw : selectWorkflow (argv.getD 1 "") = Workflow.complete ∨
      selectWorkflow (argv.getD 1 "") = Workflow.data)
    (hg : (confirm_action (stdin 0) (stdin 1)).1 = false) :
    sqlStatements (mainRun env argv pu du stdin db) = [] ∧
    (mainRun env argv pu du stdin db).db = db :=
  gate_abort_run env argv pu du stdin db hw hg

/-- Claim C1, witness: the amended theorem at a concrete aborted `complete`
run. -/
theorem C1_witness :
    sqlStatements (mainRun env0 ["prog", "complete"] (some "postgresql://x") none stdinNo db0) = [] ∧
    (mainRun env0 ["prog", "complete"] (some "postgresql://x") none stdinNo db0).db = db0 :=
  C1_abort_no_mutation env0 ["prog", "complete"] (some "postgresql://x") none stdinNo db0
    (Or.inl (by decide)) (by decide)

set_option maxRecDepth 8192 in
/-- Claim C2, counterexample: when the seed INSERT raises, the exception is
caught inside `create_admin_user`, so `reset_complete` still completes
successfully, yet `usuarios` afterwards holds zero rows, not exactly one. -/
theorem C2_counterexample :
    (reset_complete envInsFault db0).1 = Except.ok () ∧
    (reset_complete envInsFault db0).2.1.usuarios = [] :=
  ⟨rfl, by decide⟩

/-- Claim C2 (amended): after a destructive workflow completes successfully
AND the seed INSERT itself did not fail (seed failures are caught and
logged without aborting the workflow), `usuarios` contains exactly the one
seeded row, whose login is "Neotrix", whose admin flag is true, and whose
stored password field differs from the plaintext "842384". -/
theorem C2_seeded_admin (env : Env) (db : DB)
    (hmem : db.tables.contains "usuarios" = true)
    (hins : env.faults insertAdminSql = false) :
    ((reset_complete env db).1 = Except.ok () →
      (reset_complete env db).2.1.usuarios = [adminRow env]) ∧
    ((reset_data_only env db).1 = Except.ok () →
      (reset_data_only env db).2.1.usuarios = [adminRow env]) ∧
    (adminRow env).usuario = "Neotrix" ∧
    (adminRow env).is_admin = true ∧
    (adminRow env).senha_hash ≠ "842384" := by
  have hmem2 : "usuarios" ∈ db.tables := by
    simpa using hmem
  have hmain : (reset_complete env db).1 = Except.ok () →
      (reset_complete env db).2.1.usuarios = [adminRow env] := by
    intro hok
    rcases htr : truncate_all_tables env db with ⟨e, db2, evs⟩
    cases e with
    | error m => simp [reset_complete, htr] at hok
    | ok u =>
      have h := truncate_all_ok_usuarios env db hmem2 (by rw [htr])
      rw [htr] at h
      simp only at h
      have hmem3 : "usuarios" ∈ db2.tables := h.2 ▸ hmem2
      simp [reset_complete, htr, create_admin_user, hins, hmem3, h.1]
  exact ⟨hmain, by rw [resets_eq]; exact hmain, rfl, rfl, hash_ne_plaintext⟩

set_option maxRecDepth 8192 in
/-- Claim C2, witness: the amended theorem at a concrete fault-free run. -/
theorem C2_witness :
    (reset_complete env0 db0).2.1.usuarios = [adminRow env0] ∧
    (adminRow env0).senha_hash ≠ "842384" := by
  have h := C2_seeded_admin env0 db0 (by decide) rfl
  exact ⟨h.1 rfl, h.2.2.2.2⟩

/-- Claim C3, counterexample: on a catalog with three tables (none of them
`alembic_version`) the loop issues only two TRUNCATE statements, and one of
them interpolates the name `"abc\n"`, which does NOT match the anchored
pattern `^[A-Za-z_][A-Za-z0-9_]*$` (Python's `$` also accepts one trailing
newline), so neither "exactly N statements" nor "each referencing a
matching name" holds. -/
theorem C3_counterexample :
    (truncStatements env0 dbMixed).length = 2 ∧
    (dbMixed.tables.filter fun t => t != "alembic_version").length = 3 ∧
    truncateSql "abc\n" ∈ truncStatements env0 dbMixed ∧
    matchesIdentPattern "abc\n" = false := by
  decide

/-- Claim C3 (amended): when no statement faults, truncate-all issues
exactly one `TRUNCATE TABLE ... RESTART IDENTITY CASCADE` per catalog entry
(excluding `alembic_version`) that the `re.match` validation accepts — the
validation accepts exactly the names matching `^[A-Za-z_][A-Za-z0-9_]*$`
possibly followed by one trailing newline — in catalog order, and every
issued statement references a validated name; rejected entries are skipped
and never interpolated into SQL. -/
theorem C3_truncate_statements (env : Env) (db : DB)
    (hcat : env.faults catalogSql = false)
    (hf : ∀ t, env.faults (truncateSql t) = false) :
    truncStatements env db
      = ((db.tables.filter fun t => t != "alembic_version").filter pyValidName).map truncateSql ∧
    ∀ s ∈ truncStatements env db, ∃ t, pyValidName t = true ∧ s = truncateSql t := by
  have hmain : truncStatements env db
      = ((db.tables.filter fun t => t != "alembic_version").filter pyValidName).map truncateSql := by
    rw [truncStatements, truncate_all_tables]
    rcases htab : db.tables with _ | ⟨a, as⟩
    · simp [hcat, execOf]
    · simp only [hcat, Bool.false_eq_true, if_false, List.isEmpty_cons, if_neg]
      rw [truncGo_stmts env hf]
      simp [execOf]
  refine ⟨hmain, ?_⟩
  intro s hs
  rw [hmain] at hs
  rcases List.mem_map.mp hs with ⟨t, htf, rfl⟩
  exact ⟨t, (List.mem_filter.mp htf).2, rfl⟩

/-- Claim C3, witness: the amended theorem at a concrete fault-free state. -/
theorem C3_witness :
    truncStatements env0 db0
      = ((db0.tables.filter fun t => t != "alembic_version").filter pyValidName).map truncateSql :=
  (C3_truncate_statements env0 db0 rfl fun _ => rfl).1

/-- Claim C4, counterexample: with only the `vendas` fetch failing, the
fetches of `usuarios`, `produtos` and `clientes` all succeed, yet the
collector returns the empty mapping — not the successful subset (the
single `except` clause of `backup_data` returns `{}`, discarding it). -/
theorem C4_counterexample :
    (backup_data envVendasFault db0).1 = [] ∧
    fetchOk envVendasFault db0 "usuarios" = true ∧
    fetchOk envVendasFault db0 "produtos" = true ∧
    fetchOk envVendasFault db0 "clientes" = true ∧
    fetchOk envVendasFault db0 "vendas" = false := by
  decide

/-- Claim C4 (amended): a failure of any fetch in the fixed backup list is
caught inside `backup_data` (which returns normally, never propagating to
the workflow), and the collector then returns the EMPTY mapping rather than
the subset of tables whose fetches succeeded. -/
theorem C4_fail_returns_empty (env : Env) (db : DB) (t : String)
    (ht : t ∈ backupTables) (hf : fetchOk env db t = false) :
    (backup_data env db).1 = [] :=
  backupGo_fail_mem env db backupTables [] [] t ht hf

/-- Claim C4, witness: the amended theorem at the concrete `vendas` fault. -/
theorem C4_witness : (backup_data envVendasFault db0).1 = [] :=
  C4_fail_returns_empty envVendasFault db0 "vendas" (by decide) (by decide)

/-- Claim C5, counterexample: with the unrecognized argument "foo" the run
connects to the database and never prints the usage message, so
"produces a usage message and exits without ever attempting a connection"
is false. -/
theorem C5_counterexample :
    Event.connected ∈
      (mainRun env0 ["prog", "foo"] (some "postgresql://x") none stdinNo db0).events ∧
    Event.usage ∉
      (mainRun env0 ["prog", "foo"] (some "postgresql://x") none stdinNo db0).events := by
  decide

/-- Claim C5 (amended): a run with NO workflow argument prints the usage
message and exits without connecting; a run with an unrecognized argument
instead connects first (when a URL is configured), issues no mutating SQL,
reports the action as not recognized, and exits cleanly. -/
theorem C5_usage_and_unknown (env : Env) (argv : List String) (pu du : Option String)
    (stdin : Nat → String) (db : DB) :
    (argv.length < 2 →
      mainRun env argv pu du stdin db
        = { outcome := Outcome.exited, events := [Event.usage], db := db }) ∧
    (2 ≤ argv.length → selectWorkflow (argv.getD 1 "") = Workflow.unknown →
      initOk pu du = true →
      (mainRun env argv pu du stdin db).outcome = Outcome.exited ∧
      sqlStatements (mainRun env argv pu du stdin db) = [] ∧
      (env.connectOk = true →
        Event.unknownAction (pyLower (argv.getD 1 ""))
          ∈ (mainRun env argv pu du stdin db).events)) := by
  constructor
  · intro hlen
    simp [mainRun, hlen]
  · intro hlen hsel hini
    have h2 : ¬ argv.length < 2 := Nat.not_lt.mpr hlen
    rw [selectWorkflow] at hsel
    simp only [List.getD_eq_getElem?_getD] at hsel ⊢
    rcases hinit : DatabaseReset.init pu du with m | u
    · simp [initOk, hinit] at hini
    · cases hc : env.connectOk
      · refine ⟨?_, ?_, ?_⟩ <;>
          simp [mainRun, h2, hinit, hc, sqlStatements, connectEvents, closeEvents, execOf]
      · refine ⟨?_, ?_, ?_⟩ <;>
          simp [mainRun, h2, hinit, hc, sqlStatements, connectEvents, closeEvents,
            runWorkflow, hsel, execOf, List.filterMap_append]

/-- Claim C5, witness: the amended theorem at a missing-argument run and at
an unrecognized-argument run. -/
theorem C5_witness :
    mainRun env0 ["prog"] (some "postgresql://x") none stdinNo db0
      = { outcome := Outcome.exited, events := [Event.usage], db := db0 } ∧
    sqlStatements (mainRun env0 ["prog", "foo"] (some "postgresql://x") none stdinNo db0) = [] := by
  constructor
  · exact (C5_usage_and_unknown env0 ["prog"] (some "postgresql://x") none stdinNo db0).1
      (by decide)
  · exact ((C5_usage_and_unknown env0 ["prog", "foo"] (some "postgresql://x") none stdinNo db0).2
      (by decide) (by decide) rfl).2.1

/-- Claim C6, counterexample: the gate also proceeds on the input pair
`("CONFIRMO ", "SIM")`, which is not the literal pair `("CONFIRMO","SIM")`
(inputs are `.strip()`ped before comparison), so "proceeds exactly when the
two inputs are the literal pair" is false. -/
theorem C6_counterexample :
    (confirm_action "CONFIRMO " "SIM").1 = true ∧ ("CONFIRMO " : String) ≠ "CONFIRMO" := by
  decide

/-- Claim C6 (amended): the Confirmation Gate proceeds exactly when the two
inputs, after stripping leading/trailing whitespace, equal the literal pair
("CONFIRMO", "SIM"), compared case-sensitively; the case-mismatched pair
("confirmo", "SIM") aborts, and an aborted gate means the run issues no
mutating SQL and leaves the database unchanged. -/
theorem C6_gate_exact :
    (∀ i1 i2 : String,
      (confirm_action i1 i2).1 = true ↔ (pyStrip i1 = "CONFIRMO" ∧ pyStrip i2 = "SIM")) ∧
    (confirm_action "confirmo" "SIM").1 = false ∧
    (∀ (env : Env) (argv : List String) (pu du : Option String)
        (stdin : Nat → String) (db : DB),
      (selectWorkflow (argv.getD 1 "") = Workflow.complete ∨
        selectWorkflow (argv.getD 1 "") = Workflow.data) →
      (confirm_action (stdin 0) (stdin 1)).1 = false →
      sqlStatements (mainRun env argv pu du stdin db) = [] ∧
      (mainRun env argv pu du stdin db).db = db) :=
  ⟨confirm_action_fst, by decide,
    fun env argv pu du stdin db hw hg => gate_abort_run env argv pu du stdin db hw hg⟩

/-- Claim C6, witness: the amended theorem applied to the exact pair, the
case-mismatched pair, and a concrete aborted `data` run. -/
theorem C6_witness :
    (confirm_action "CONFIRMO" "SIM").1 = true ∧
    (confirm_action "confirmo" "SIM").1 = false ∧
    sqlStatements (mainRun env0 ["prog", "data"] (some "postgresql://x") none stdinNo db0) = [] :=
  ⟨(C6_gate_exact.1 "CONFIRMO" "SIM").mpr ⟨by decide, by decide⟩, C6_gate_exact.2.1,
    (C6_gate_exact.2.2 env0 ["prog", "data"] (some "postgresql://x") none stdinNo db0
      (Or.inr (by decide)) (by decide)).1⟩

/-- Claim C7 (confirmed): when both `DATABASE_PUBLIC_URL` and
`DATABASE_URL` are unset, `DatabaseReset.__init__` raises the fatal
configuration `ValueError`, and a run crashes with that error before any
connection attempt (its event trace is empty). -/
theorem C7_missing_config_fatal :
    DatabaseReset.init none none = Except.error errMsgNoUrl ∧
    ∀ (env : Env) (argv : List String) (stdin : Nat → String) (db : DB),
      2 ≤ argv.length →
      mainRun env argv none none stdin db
        = { outcome := Outcome.crashed errMsgNoUrl, events := [], db := db } := by
  refine ⟨rfl, ?_⟩
  intro env argv stdin db hlen
  have h2 : ¬ argv.length < 2 := Nat.not_lt.mpr hlen
  unfold mainRun
  rw [if_neg h2]
  rfl

/-- Claim C7, witness: the theorem at a concrete run with both variables
unset. -/
theorem C7_witness :
    mainRun env0 ["prog", "check"] none none stdinNo db0
      = { outcome := Outcome.crashed errMsgNoUrl, events := [], db := db0 } :=
  C7_missing_config_fatal.2 env0 ["prog", "check"] stdinNo db0 (by decide)

/-- Claim C8, counterexample: a run with no CLI argument, and a run that
crashes in `__init__` for missing configuration, both invoke `close` zero
times (the `try/finally` is never entered), so "in every run, connection
close is invoked exactly once" is false. -/
theorem C8_counterexample :
    closeCalls (mainRun env0 ["prog"] (some "postgresql://x") none stdinNo db0) = 0 ∧
    closeCalls (mainRun env0 ["prog", "complete"] none none stdinYes db0) = 0 := by
  decide

/-- Claim C8 (amended): in every run that reaches the `try` block (a
workflow argument is present and initialization succeeds), `close` is
invoked exactly once — including runs in which backup, truncate, or seed
statements raise, and runs in which the connection itself fails; runs that
exit at the usage message or crash in initialization never opened a
connection and invoke `close` zero times. -/
theorem C8_close_once (env : Env) (argv : List String) (pu du : Option String)
    (stdin : Nat → String) (db : DB)
    (hlen : 2 ≤ argv.length) (hini : initOk pu du = true) :
    closeCalls (mainRun env argv pu du stdin db) = 1 := by
  have h2 : ¬ argv.length < 2 := Nat.not_lt.mpr hlen
  rcases hinit : DatabaseReset.init pu du with m | u
  · simp [initOk, hinit] at hini
  · cases hc : env.connectOk
    · simp [mainRun, h2, hinit, hc, closeCalls, connectEvents, closeEvents,
        List.countP_append, List.countP_cons, isClose]
    · simp [mainRun, h2, hinit, hc, closeCalls, connectEvents, closeEvents,
        List.countP_append, List.countP_cons, isClose, countP_isClose_runWorkflow]

/-- Claim C8, witness: the amended theorem at a concrete full `complete`
run (every statement succeeds, and truncation plus seeding happen). -/
theorem C8_witness :
    closeCalls (mainRun env0 ["prog", "complete"] (some "postgresql://x") none stdinYes db0) = 1 :=
  C8_close_once env0 ["prog", "complete"] (some "postgresql://x") none stdinYes db0
    (by decide) rfl

/-- Claim C9 (confirmed): `reset_complete` and `reset_data_only` perform
the identical backup → truncate-all → seed sequence on the same state,
returning the same result, the same final database, and the same event
trace (hence the same sequence of SQL operations). -/
theorem C9_workflows_identical :
    ∀ (env : Env) (db : DB), reset_complete env db = reset_data_only env db :=
  fun _ _ => rfl

set_option maxRecDepth 8192 in
/-- Claim C10 (confirmed): workflow selection lowercases the CLI argument
before dispatching, so "CHECK", "Complete" and "DATA" select the same
workflows as their lowercase forms; a whole run with argument "DATA" equals
the run with "data". -/
theorem C10_case_insensitive :
    (∀ s : String, selectWorkflow s = selectByName (pyLower s)) ∧
    selectWorkflow "CHECK" = Workflow.check ∧
    selectWorkflow "Complete" = Workflow.complete ∧
    selectWorkflow "DATA" = Workflow.data ∧
    mainRun env0 ["prog", "DATA"] (some "postgresql://x") none stdinYes db0
      = mainRun env0 ["prog", "data"] (some "postgresql://x") none stdinYes db0 :=
  ⟨fun _ => rfl, by decide, by decide, by decide, by decide⟩

end ResetDB
